import Mathlib

/-!
Shallow embedding of the chdb-rust wrapper (src/connection.rs, src/arrow_stream.rs).

Rust strings are modelled as lists of byte values (`List Nat`); all literals in
the repository are ASCII, so a character of a Lean string literal is one byte.
Raw C pointers are modelled as natural-number addresses with `0` as the null
pointer.  The foreign engine (the `bindings` module, generated from the C ABI
and not part of src/) is modelled as an oracle: a structure of functions, one
per entry point, together with a memory-read function for the one pointer
dereference the wrapper performs.  Every public operation returns, besides its
result, the explicit list of engine calls it made, so that claims about "no
engine call" or "exactly one engine call" are statable.
-/

namespace ChdbRust

/-- Bytes of an ASCII Rust string literal: each character as its code point. -/
def strBytes (s : String) : List Nat := s.data.map Char.toNat

/-- Modelled from the spec: `error.rs` is not under src/.  Section 7 of the
spec gives the taxonomy: an encoding (Nul) error for embedded null bytes,
`ConnectionFailed` for a null session on open, `NoResult` for a null result
handle, and `QueryError` carrying a human-readable message. -/
inductive Error where
  | Nul : Error
  | ConnectionFailed : Error
  | NoResult : Error
  | QueryError : List Nat → Error
deriving DecidableEq

/-- `CString::new` from the Rust standard library: fails with the Nul
(encoding) error exactly when the byte string contains an embedded null byte,
and otherwise passes the bytes through unchanged. -/
def CString.new (s : List Nat) : Except Error (List Nat) :=
  if 0 ∈ s then .error .Nul else .ok s

/-- `args.iter().map(CString::new).collect::<Result<Vec<_>, _>>()` from
`Connection::open`: encode every argument, stopping at the first failure. -/
def encodeAll : List (List Nat) → Except Error (List (List Nat))
  | [] => .ok []
  | a :: rest =>
    match CString.new a with
    | .error e => .error e
    | .ok ca =>
      match encodeAll rest with
      | .error e => .error e
      | .ok cas => .ok (ca :: cas)

/-- One call into one of the engine entry points used by the wrapper,
recording the arguments passed across the C boundary. -/
inductive EngineCall where
  | connect : List (List Nat) → EngineCall
  | close : Nat → EngineCall
  | query : Nat → List Nat → List Nat → EngineCall
  | arrowScan : Nat → List Nat → Nat → EngineCall
  | arrowArrayScan : Nat → List Nat → Nat → Nat → EngineCall
  | arrowUnregister : Nat → List Nat → EngineCall
deriving DecidableEq

/-- Modelled from the spec: the `bindings` module (the engine C ABI) is not
under src/.  The engine is an oracle: a function per entry point, plus `deref`
modelling the read `*ptr` of a pointer the engine handed out.  Addresses are
naturals with `0` as null; status codes are integers. -/
structure Engine where
  connect : List (List Nat) → Nat
  deref : Nat → Nat
  queryFn : Nat → List Nat → List Nat → Nat
  resultError : Nat → Option (List Nat)
  arrowScan : Nat → List Nat → Nat → Int
  arrowArrayScan : Nat → List Nat → Nat → Nat → Int
  arrowUnregister : Nat → List Nat → Int

/-- Modelled from the spec: the success constant of the engine status
enumeration (`bindings::chdb_state_CHDBSuccess`); one value denotes success,
all others denote failure. -/
def chdb_state_CHDBSuccess : Int := 0

/-- `Connection` from src/connection.rs: the single field `inner` holds the
raw `chdb_connection` pointer returned by `chdb_connect`. -/
structure Connection where
  inner : Nat
deriving DecidableEq

/-- `ArrowStream` from src/arrow_stream.rs: a wrapper around a raw
`chdb_arrow_stream` address. -/
structure ArrowStream where
  inner : Nat
deriving DecidableEq

/-- `ArrowStream::from_raw`: wraps any address without validation. -/
def ArrowStream.from_raw (stream : Nat) : ArrowStream := ⟨stream⟩

/-- `ArrowStream::as_raw`: returns the wrapped address unchanged. -/
def ArrowStream.as_raw (s : ArrowStream) : Nat := s.inner

/-- The derived `Copy` of `ArrowStream`: a bitwise duplicate of the single
address field. -/
def ArrowStream.copy (s : ArrowStream) : ArrowStream := s

/-- `ArrowSchema` from src/arrow_stream.rs: a wrapper around a raw
`chdb_arrow_schema` address. -/
structure ArrowSchema where
  inner : Nat
deriving DecidableEq

/-- `ArrowSchema::from_raw`: wraps any address without validation. -/
def ArrowSchema.from_raw (schema : Nat) : ArrowSchema := ⟨schema⟩

/-- `ArrowSchema::as_raw`: returns the wrapped address unchanged. -/
def ArrowSchema.as_raw (s : ArrowSchema) : Nat := s.inner

/-- The derived `Copy` of `ArrowSchema`. -/
def ArrowSchema.copy (s : ArrowSchema) : ArrowSchema := s

/-- `ArrowArray` from src/arrow_stream.rs: a wrapper around a raw
`chdb_arrow_array` address. -/
structure ArrowArray where
  inner : Nat
deriving DecidableEq

/-- `ArrowArray::from_raw`: wraps any address without validation. -/
def ArrowArray.from_raw (array : Nat) : ArrowArray := ⟨array⟩

/-- `ArrowArray::as_raw`: returns the wrapped address unchanged. -/
def ArrowArray.as_raw (a : ArrowArray) : Nat := a.inner

/-- The derived `Copy` of `ArrowArray`. -/
def ArrowArray.copy (a : ArrowArray) : ArrowArray := a

/-- Modelled from the spec: `format.rs` is not under src/.  An output format
carries the format-name string that `as_str` returns and the wrapper encodes. -/
structure OutputFormat where
  as_str : List Nat
deriving DecidableEq

/-- Modelled from the spec: `query_result.rs` is not under src/.  A query
result owns the raw result pointer the engine returned. -/
structure QueryResult where
  ptr : Nat
deriving DecidableEq

/-- `QueryResult::new`: wraps the raw result pointer. -/
def QueryResult.new (p : Nat) : QueryResult := ⟨p⟩

/-- Modelled from the spec: `QueryResult::check_error` is not under src/.
Spec section 4.2: a non-null result may carry an embedded engine-reported
error, which must be surfaced by re-checking the result immediately after
construction; the result is returned unchanged when no error is embedded. -/
def QueryResult.check_error (E : Engine) (r : QueryResult) : Except Error QueryResult :=
  match E.resultError r.ptr with
  | some msg => .error (.QueryError msg)
  | none => .ok r

/-- Outcome of `Connection::open`: the result and the engine calls made. -/
structure OpenRet where
  res : Except Error Connection
  calls : List EngineCall

/-- Outcome of a `&self` method on `Connection`: the result, the connection
value after the call (the method takes a shared borrow, so the translation of
the body leaves it untouched), and the engine calls made. -/
structure Ret (α : Type) where
  res : Except Error α
  conn : Connection
  calls : List EngineCall

/-- `Connection::open` from src/connection.rs: encode every argument (first
null byte aborts with the encoding error before any engine call), call
`chdb_connect`, fail with `ConnectionFailed` if the returned handle is null or
the session it points at is null, otherwise store the handle. -/
def Connection.open (E : Engine) (args : List (List Nat)) : OpenRet :=
  match encodeAll args with
  | .error e => ⟨.error e, []⟩
  | .ok c_args =>
    let conn_ptr := E.connect c_args
    if conn_ptr = 0 then ⟨.error .ConnectionFailed, [.connect c_args]⟩
    else
      let conn := E.deref conn_ptr
      if conn = 0 then ⟨.error .ConnectionFailed, [.connect c_args]⟩
      else ⟨.ok ⟨conn_ptr⟩, [.connect c_args]⟩

/-- `Connection::open_in_memory`: `open(&["clickhouse"])`. -/
def Connection.open_in_memory (E : Engine) : OpenRet :=
  Connection.open E [strBytes "clickhouse"]

/-- `Connection::open_with_path`: builds `--path={path}` and calls
`open(&["clickhouse", &path_arg])`. -/
def Connection.open_with_path (E : Engine) (path : List Nat) : OpenRet :=
  Connection.open E [strBytes "clickhouse", strBytes "--path=" ++ path]

/-- `Connection::query` from src/connection.rs: encode the sql text and the
format name (a null byte in either aborts with the encoding error before any
engine call), dereference the stored handle, call `chdb_query`, fail with
`NoResult` on a null result pointer, otherwise build the `QueryResult` and
pass it through `check_error`. -/
def Connection.query (E : Engine) (c : Connection) (sql : List Nat)
    (format : OutputFormat) : Ret QueryResult :=
  match CString.new sql with
  | .error e => ⟨.error e, c, []⟩
  | .ok query_cstr =>
    match CString.new format.as_str with
    | .error e => ⟨.error e, c, []⟩
    | .ok format_cstr =>
      let conn := E.deref c.inner
      let result_ptr := E.queryFn conn query_cstr format_cstr
      if result_ptr = 0 then ⟨.error .NoResult, c, [.query conn query_cstr format_cstr]⟩
      else
        let result := QueryResult.new result_ptr
        ⟨result.check_error E, c, [.query conn query_cstr format_cstr]⟩

/-- The message built by `register_arrow_stream` on failure:
`format("Failed to register Arrow stream as table _{}_", table_name)` where 39
is the single-quote byte of the format string. -/
def msgRegisterStream (table_name : List Nat) : List Nat :=
  strBytes "Failed to register Arrow stream as table " ++ 39 :: table_name ++ [39]

/-- `Connection::register_arrow_stream` from src/connection.rs: encode the
table name, dereference the stored handle, call `chdb_arrow_scan` with the raw
stream address, map the success status to `Ok` and any other status to a
`QueryError` carrying the table name. -/
def Connection.register_arrow_stream (E : Engine) (c : Connection)
    (table_name : List Nat) (arrow_stream : ArrowStream) : Ret Unit :=
  match CString.new table_name with
  | .error e => ⟨.error e, c, []⟩
  | .ok table_name_cstr =>
    let conn := E.deref c.inner
    let state := E.arrowScan conn table_name_cstr arrow_stream.as_raw
    if state = chdb_state_CHDBSuccess then
      ⟨.ok (), c, [.arrowScan conn table_name_cstr arrow_stream.as_raw]⟩
    else
      ⟨.error (.QueryError (msgRegisterStream table_name)), c,
        [.arrowScan conn table_name_cstr arrow_stream.as_raw]⟩

/-- The message built by `register_arrow_array` on failure. -/
def msgRegisterArray (table_name : List Nat) : List Nat :=
  strBytes "Failed to register Arrow array as table " ++ 39 :: table_name ++ [39]

/-- `Connection::register_arrow_array` from src/connection.rs: same contract
as `register_arrow_stream`, forwarding both the schema and the array address
to `chdb_arrow_array_scan`. -/
def Connection.register_arrow_array (E : Engine) (c : Connection)
    (table_name : List Nat) (arrow_schema : ArrowSchema)
    (arrow_array : ArrowArray) : Ret Unit :=
  match CString.new table_name with
  | .error e => ⟨.error e, c, []⟩
  | .ok table_name_cstr =>
    let conn := E.deref c.inner
    let state := E.arrowArrayScan conn table_name_cstr arrow_schema.as_raw arrow_array.as_raw
    if state = chdb_state_CHDBSuccess then
      ⟨.ok (), c, [.arrowArrayScan conn table_name_cstr arrow_schema.as_raw arrow_array.as_raw]⟩
    else
      ⟨.error (.QueryError (msgRegisterArray table_name)), c,
        [.arrowArrayScan conn table_name_cstr arrow_schema.as_raw arrow_array.as_raw]⟩

/-- The message built by `unregister_arrow_table` on failure. -/
def msgUnregister (table_name : List Nat) : List Nat :=
  strBytes "Failed to unregister Arrow table " ++ 39 :: table_name ++ [39]

/-- `Connection::unregister_arrow_table` from src/connection.rs: encode the
table name, dereference the stored handle, call
`chdb_arrow_unregister_table`, map the status as the registration calls do. -/
def Connection.unregister_arrow_table (E : Engine) (c : Connection)
    (table_name : List Nat) : Ret Unit :=
  match CString.new table_name with
  | .error e => ⟨.error e, c, []⟩
  | .ok table_name_cstr =>
    let conn := E.deref c.inner
    let state := E.arrowUnregister conn table_name_cstr
    if state = chdb_state_CHDBSuccess then
      ⟨.ok (), c, [.arrowUnregister conn table_name_cstr]⟩
    else
      ⟨.error (.QueryError (msgUnregister table_name)), c,
        [.arrowUnregister conn table_name_cstr]⟩

/-- `impl Drop for Connection` from src/connection.rs: if the stored handle is
non-null, call `chdb_close_conn` on it, once; otherwise do nothing. -/
def Connection.drop (c : Connection) : List EngineCall :=
  if ¬ c.inner = 0 then [.close c.inner] else []

/-! ### Sample engines, used to instantiate the universally quantified
theorems at concrete values. -/

/-- A concrete engine on which every operation succeeds. -/
def sampleEngine : Engine where
  connect := fun _ => 5
  deref := fun p => p + 1
  queryFn := fun _ _ _ => 7
  resultError := fun _ => none
  arrowScan := fun _ _ _ => 0
  arrowArrayScan := fun _ _ _ _ => 0
  arrowUnregister := fun _ _ => 0

/-- A concrete engine whose connect entry point hands out a non-null handle
pointing at a null session, and whose status calls all fail. -/
def nullSessionEngine : Engine where
  connect := fun _ => 5
  deref := fun _ => 0
  queryFn := fun _ _ _ => 0
  resultError := fun _ => some (strBytes "engine reported failure")
  arrowScan := fun _ _ _ => 1
  arrowArrayScan := fun _ _ _ _ => 1
  arrowUnregister := fun _ _ => 1

/-! ### Helper lemmas -/

/-- A byte string without an embedded null byte encodes to itself. -/
theorem CString.new_eq_ok (s : List Nat) (h : 0 ∉ s) : CString.new s = .ok s := by
  simp [CString.new, h]

/-- A byte string with an embedded null byte fails to encode with `Nul`. -/
theorem CString.new_eq_error (s : List Nat) (h : 0 ∈ s) :
    CString.new s = .error .Nul := by
  simp [CString.new, h]

/-- An argument list without embedded null bytes encodes to itself. -/
theorem encodeAll_eq_ok (args : List (List Nat)) (h : ∀ a ∈ args, 0 ∉ a) :
    encodeAll args = .ok args := by
  induction args with
  | nil => rfl
  | cons a rest ih =>
    have ha : 0 ∉ a := h a (by simp)
    have hrest := ih (fun b hb => h b (by simp [hb]))
    simp [encodeAll, CString.new_eq_ok a ha, hrest]

/-- An argument list with an embedded null byte somewhere fails to encode
with `Nul`. -/
theorem encodeAll_eq_error (args : List (List Nat)) (h : ∃ a ∈ args, 0 ∈ a) :
    encodeAll args = .error .Nul := by
  induction args with
  | nil => simp at h
  | cons a rest ih =>
    by_cases ha : 0 ∈ a
    · simp [encodeAll, CString.new_eq_error a ha]
    · obtain ⟨b, hb, hb0⟩ := h
      rcases List.mem_cons.mp hb with rfl | hbrest
      · exact absurd hb0 ha
      · simp [encodeAll, CString.new_eq_ok a ha, ih ⟨b, hbrest, hb0⟩]

/-- Any connection produced by a successful `open` stores a non-null handle
whose dereferenced session is non-null. -/
theorem open_res_ok_spec (E : Engine) (args : List (List Nat)) (c : Connection)
    (h : (Connection.open E args).res = .ok c) :
    c.inner ≠ 0 ∧ E.deref c.inner ≠ 0 := by
  unfold Connection.open at h
  rcases he : encodeAll args with e | c_args <;> rw [he] at h
  · simp at h
  · dsimp only at h
    split at h
    · simp at h
    · split at h
      · simp at h
      · obtain rfl : c = ⟨E.connect c_args⟩ := by simpa using h.symm
        exact ⟨by assumption, by assumption⟩

/-! ### Claim theorems -/

/-- C1: every public operation that accepts a string argument (open, query,
register_arrow_stream, register_arrow_array, unregister_arrow_table) returns
the encoding (Nul) error when that string contains an embedded null byte, and
makes no engine call at all, leaving the engine state unchanged. -/
theorem nul_byte_rejected (E : Engine) (c : Connection) (args : List (List Nat))
    (sql table_name : List Nat) (format : OutputFormat) (s : ArrowStream)
    (sch : ArrowSchema) (arr : ArrowArray) :
    ((∃ a ∈ args, 0 ∈ a) → Connection.open E args = ⟨.error .Nul, []⟩) ∧
    ((0 ∈ sql ∨ 0 ∈ format.as_str) →
      Connection.query E c sql format = ⟨.error .Nul, c, []⟩) ∧
    (0 ∈ table_name →
      Connection.register_arrow_stream E c table_name s = ⟨.error .Nul, c, []⟩) ∧
    (0 ∈ table_name →
      Connection.register_arrow_array E c table_name sch arr = ⟨.error .Nul, c, []⟩) ∧
    (0 ∈ table_name →
      Connection.unregister_arrow_table E c table_name = ⟨.error .Nul, c, []⟩) := by
  refine ⟨fun h => ?_, fun h => ?_, fun h => ?_, fun h => ?_, fun h => ?_⟩
  · unfold Connection.open
    rw [encodeAll_eq_error args h]
  · unfold Connection.query
    rcases h with h | h
    · rw [CString.new_eq_error sql h]
    · by_cases hs : 0 ∈ sql
      · rw [CString.new_eq_error sql hs]
      · rw [CString.new_eq_ok sql hs, CString.new_eq_error format.as_str h]
  · unfold Connection.register_arrow_stream
    rw [CString.new_eq_error table_name h]
  · unfold Connection.register_arrow_array
    rw [CString.new_eq_error table_name h]
  · unfold Connection.unregister_arrow_table
    rw [CString.new_eq_error table_name h]

/-- Witness for C1 at concrete inputs containing a null byte. -/
theorem nul_byte_rejected_witness :
    Connection.open sampleEngine [[99, 0]] = ⟨.error .Nul, []⟩ ∧
    Connection.query sampleEngine ⟨6⟩ [83, 0] ⟨[70]⟩ = ⟨.error .Nul, ⟨6⟩, []⟩ ∧
    Connection.register_arrow_stream sampleEngine ⟨6⟩ [0, 65] ⟨3⟩ =
      ⟨.error .Nul, ⟨6⟩, []⟩ ∧
    Connection.register_arrow_array sampleEngine ⟨6⟩ [0, 65] ⟨3⟩ ⟨4⟩ =
      ⟨.error .Nul, ⟨6⟩, []⟩ ∧
    Connection.unregister_arrow_table sampleEngine ⟨6⟩ [0, 65] =
      ⟨.error .Nul, ⟨6⟩, []⟩ :=
  have h := nul_byte_rejected sampleEngine ⟨6⟩ [[99, 0]] [83, 0] [0, 65] ⟨[70]⟩ ⟨3⟩ ⟨4⟩ ⟨5⟩
  ⟨h.1 ⟨[99, 0], by simp, by decide⟩, h.2.1 (Or.inl (by decide)),
    h.2.2.1 (by decide), h.2.2.2.1 (by decide), h.2.2.2.2 (by decide)⟩

/-- C2: for null-free argument lists, open fails with `ConnectionFailed`
exactly when the engine returns a null outer handle or a non-null handle whose
dereferenced session is null; otherwise it returns a connection storing the
non-null handle with a non-null session. -/
theorem open_connection_failed_iff (E : Engine) (args : List (List Nat))
    (h : ∀ a ∈ args, 0 ∉ a) :
    ((Connection.open E args).res = .error .ConnectionFailed ↔
      E.connect args = 0 ∨
        (E.connect args ≠ 0 ∧ E.deref (E.connect args) = 0)) ∧
    (¬ (E.connect args = 0 ∨
        (E.connect args ≠ 0 ∧ E.deref (E.connect args) = 0)) →
      (Connection.open E args).res = .ok ⟨E.connect args⟩) ∧
    (∀ c, (Connection.open E args).res = .ok c →
      c.inner ≠ 0 ∧ E.deref c.inner ≠ 0) := by
  refine ⟨?_, ?_, fun c hc => open_res_ok_spec E args c hc⟩ <;>
    (unfold Connection.open; rw [encodeAll_eq_ok args h]; dsimp only) <;>
    by_cases h1 : E.connect args = 0 <;> by_cases h2 : E.deref (E.connect args) = 0 <;>
    simp [h1, h2]

/-- Witness for C2: a null-free argument list on the all-success engine. -/
theorem open_connection_failed_iff_witness :
    (∀ a ∈ [[99]], (0 : Nat) ∉ a) ∧
    (((Connection.open sampleEngine [[99]]).res = .error .ConnectionFailed ↔
      sampleEngine.connect [[99]] = 0 ∨
        (sampleEngine.connect [[99]] ≠ 0 ∧
          sampleEngine.deref (sampleEngine.connect [[99]]) = 0)) ∧
    (¬ (sampleEngine.connect [[99]] = 0 ∨
        (sampleEngine.connect [[99]] ≠ 0 ∧
          sampleEngine.deref (sampleEngine.connect [[99]]) = 0)) →
      (Connection.open sampleEngine [[99]]).res = .ok ⟨sampleEngine.connect [[99]]⟩) ∧
    (∀ c, (Connection.open sampleEngine [[99]]).res = .ok c →
      c.inner ≠ 0 ∧ sampleEngine.deref c.inner ≠ 0)) :=
  ⟨by decide, open_connection_failed_iff sampleEngine [[99]] (by decide)⟩

/-- C3: for null-free table names, the two registration calls and the
unregistration call succeed exactly when the engine status equals the success
constant, and on any other status they return a `QueryError` whose message
contains the supplied table name. -/
theorem register_status_mapping (E : Engine) (c : Connection)
    (table_name : List Nat) (s : ArrowStream) (sch : ArrowSchema)
    (arr : ArrowArray) (h : 0 ∉ table_name) :
    ((Connection.register_arrow_stream E c table_name s).res = .ok () ↔
      E.arrowScan (E.deref c.inner) table_name s.as_raw = chdb_state_CHDBSuccess) ∧
    (E.arrowScan (E.deref c.inner) table_name s.as_raw ≠ chdb_state_CHDBSuccess →
      ∃ msg, (Connection.register_arrow_stream E c table_name s).res =
        .error (.QueryError msg) ∧ table_name <:+: msg) ∧
    ((Connection.register_arrow_array E c table_name sch arr).res = .ok () ↔
      E.arrowArrayScan (E.deref c.inner) table_name sch.as_raw arr.as_raw =
        chdb_state_CHDBSuccess) ∧
    (E.arrowArrayScan (E.deref c.inner) table_name sch.as_raw arr.as_raw ≠
        chdb_state_CHDBSuccess →
      ∃ msg, (Connection.register_arrow_array E c table_name sch arr).res =
        .error (.QueryError msg) ∧ table_name <:+: msg) ∧
    ((Connection.unregister_arrow_table E c table_name).res = .ok () ↔
      E.arrowUnregister (E.deref c.inner) table_name = chdb_state_CHDBSuccess) ∧
    (E.arrowUnregister (E.deref c.inner) table_name ≠ chdb_state_CHDBSuccess →
      ∃ msg, (Connection.unregister_arrow_table E c table_name).res =
        .error (.QueryError msg) ∧ table_name <:+: msg) := by
  have hn := CString.new_eq_ok table_name h
  refine ⟨?_, fun hs => ?_, ?_, fun hs => ?_, ?_, fun hs => ?_⟩
  · unfold Connection.register_arrow_stream
    rw [hn]
    dsimp only
    split <;> simp_all
  · unfold Connection.register_arrow_stream
    rw [hn]
    dsimp only
    rw [if_neg hs]
    exact ⟨msgRegisterStream table_name, rfl,
      strBytes "Failed to register Arrow stream as table " ++ [39], [39],
      by simp [msgRegisterStream]⟩
  · unfold Connection.register_arrow_array
    rw [hn]
    dsimp only
    split <;> simp_all
  · unfold Connection.register_arrow_array
    rw [hn]
    dsimp only
    rw [if_neg hs]
    exact ⟨msgRegisterArray table_name, rfl,
      strBytes "Failed to register Arrow array as table " ++ [39], [39],
      by simp [msgRegisterArray]⟩
  · unfold Connection.unregister_arrow_table
    rw [hn]
    dsimp only
    split <;> simp_all
  · unfold Connection.unregister_arrow_table
    rw [hn]
    dsimp only
    rw [if_neg hs]
    exact ⟨msgUnregister table_name, rfl,
      strBytes "Failed to unregister Arrow table " ++ [39], [39],
      by simp [msgUnregister]⟩

/-- Witness for C3: a null-free table name on the all-success engine. -/
theorem register_status_mapping_witness :
    (0 : Nat) ∉ [65] ∧
    (((Connection.register_arrow_stream sampleEngine ⟨6⟩ [65] ⟨3⟩).res = .ok () ↔
      sampleEngine.arrowScan (sampleEngine.deref 6) [65] 3 =
        chdb_state_CHDBSuccess) ∧
    (sampleEngine.arrowScan (sampleEngine.deref 6) [65] 3 ≠
        chdb_state_CHDBSuccess →
      ∃ msg, (Connection.register_arrow_stream sampleEngine ⟨6⟩ [65] ⟨3⟩).res =
        .error (.QueryError msg) ∧ [65] <:+: msg) ∧
    ((Connection.register_arrow_array sampleEngine ⟨6⟩ [65] ⟨3⟩ ⟨4⟩).res = .ok () ↔
      sampleEngine.arrowArrayScan (sampleEngine.deref 6) [65] 3 4 =
        chdb_state_CHDBSuccess) ∧
    (sampleEngine.arrowArrayScan (sampleEngine.deref 6) [65] 3 4 ≠
        chdb_state_CHDBSuccess →
      ∃ msg, (Connection.register_arrow_array sampleEngine ⟨6⟩ [65] ⟨3⟩ ⟨4⟩).res =
        .error (.QueryError msg) ∧ [65] <:+: msg) ∧
    ((Connection.unregister_arrow_table sampleEngine ⟨6⟩ [65]).res = .ok () ↔
      sampleEngine.arrowUnregister (sampleEngine.deref 6) [65] =
        chdb_state_CHDBSuccess) ∧
    (sampleEngine.arrowUnregister (sampleEngine.deref 6) [65] ≠
        chdb_state_CHDBSuccess →
      ∃ msg, (Connection.unregister_arrow_table sampleEngine ⟨6⟩ [65]).res =
        .error (.QueryError msg) ∧ [65] <:+: msg)) :=
  ⟨by decide, register_status_mapping sampleEngine ⟨6⟩ [65] ⟨3⟩ ⟨3⟩ ⟨4⟩ (by decide)⟩

/-- C4: for null-free sql and format strings, query fails with `NoResult`
exactly when the engine returns a null result pointer; on a non-null pointer
the constructed result is passed through its own error check, so an `Ok`
result never carries an unchecked engine-reported error. -/
theorem query_two_stage_contract (E : Engine) (c : Connection) (sql : List Nat)
    (format : OutputFormat) (h1 : 0 ∉ sql) (h2 : 0 ∉ format.as_str) :
    ((Connection.query E c sql format).res = .error .NoResult ↔
      E.queryFn (E.deref c.inner) sql format.as_str = 0) ∧
    (E.queryFn (E.deref c.inner) sql format.as_str ≠ 0 →
      (Connection.query E c sql format).res =
        (QueryResult.new (E.queryFn (E.deref c.inner) sql format.as_str)).check_error E) ∧
    (∀ r, (Connection.query E c sql format).res = .ok r →
      E.resultError r.ptr = none) := by
  have hq := CString.new_eq_ok sql h1
  have hf := CString.new_eq_ok format.as_str h2
  unfold Connection.query
  rw [hq, hf]
  dsimp only
  by_cases hp : E.queryFn (E.deref c.inner) sql format.as_str = 0
  · rw [if_pos hp]
    exact ⟨by simp [hp], fun hc => absurd hp hc, by simp⟩
  · rw [if_neg hp]
    refine ⟨?_, fun _ => rfl, fun r hr => ?_⟩
    · unfold QueryResult.check_error
      rcases he : E.resultError (QueryResult.new
          (E.queryFn (E.deref c.inner) sql format.as_str)).ptr with _ | msg <;>
        simp [he, hp]
    · unfold QueryResult.check_error at hr
      rcases he : E.resultError (QueryResult.new
          (E.queryFn (E.deref c.inner) sql format.as_str)).ptr with _ | msg <;>
        rw [he] at hr
      · obtain rfl : r = QueryResult.new
            (E.queryFn (E.deref c.inner) sql format.as_str) := by
          simpa using hr.symm
        exact he
      · simp at hr

/-- Witness for C4: null-free sql and format on the all-success engine. -/
theorem query_two_stage_contract_witness :
    (0 : Nat) ∉ [83] ∧ (0 : Nat) ∉ OutputFormat.as_str ⟨[70]⟩ ∧
    (((Connection.query sampleEngine ⟨6⟩ [83] ⟨[70]⟩).res = .error .NoResult ↔
      sampleEngine.queryFn (sampleEngine.deref 6) [83]
        (OutputFormat.as_str ⟨[70]⟩) = 0) ∧
    (sampleEngine.queryFn (sampleEngine.deref 6) [83]
        (OutputFormat.as_str ⟨[70]⟩) ≠ 0 →
      (Connection.query sampleEngine ⟨6⟩ [83] ⟨[70]⟩).res =
        (QueryResult.new (sampleEngine.queryFn (sampleEngine.deref 6) [83]
          (OutputFormat.as_str ⟨[70]⟩))).check_error sampleEngine) ∧
    (∀ r, (Connection.query sampleEngine ⟨6⟩ [83] ⟨[70]⟩).res = .ok r →
      sampleEngine.resultError r.ptr = none)) :=
  ⟨by decide, by decide,
    query_two_stage_contract sampleEngine ⟨6⟩ [83] ⟨[70]⟩ (by decide) (by decide)⟩

/-- C5: dropping a connection calls the engine close entry point exactly once
with the stored handle when it is non-null and never when it is null; every
connection produced by a successful open has a non-null handle, so it is
closed exactly once, and close is never emitted twice for one value. -/
theorem drop_closes_exactly_once (E : Engine) (c : Connection)
    (args : List (List Nat)) :
    (c.inner ≠ 0 → Connection.drop c = [.close c.inner]) ∧
    (c.inner = 0 → Connection.drop c = []) ∧
    (∀ c2, (Connection.open E args).res = .ok c2 →
      c2.inner ≠ 0 ∧ Connection.drop c2 = [.close c2.inner]) ∧
    (∀ c2, List.count (EngineCall.close (Connection.inner c2))
      (Connection.drop c2) ≤ 1) := by
  refine ⟨fun h => by simp [Connection.drop, h], fun h => by simp [Connection.drop, h],
    fun c2 h2 => ?_, fun c2 => ?_⟩
  · have := (open_res_ok_spec E args c2 h2).1
    exact ⟨this, by simp [Connection.drop, this]⟩
  · unfold Connection.drop
    split <;> simp

/-- Witness for C5 at concrete connections and the all-success engine. -/
theorem drop_closes_exactly_once_witness :
    Connection.drop ⟨6⟩ = [EngineCall.close 6] ∧
    Connection.drop ⟨0⟩ = [] ∧
    (Connection.inner ⟨5⟩ ≠ 0 ∧ Connection.drop ⟨5⟩ = [EngineCall.close 5]) ∧
    List.count (EngineCall.close (Connection.inner ⟨6⟩)) (Connection.drop ⟨6⟩) ≤ 1 := by
  have h := drop_closes_exactly_once sampleEngine ⟨6⟩ [[99]]
  have h0 := drop_closes_exactly_once sampleEngine ⟨0⟩ [[99]]
  exact ⟨h.1 (by decide), h0.2.1 rfl, h.2.2.1 ⟨5⟩ rfl, h.2.2.2 ⟨6⟩⟩

/-- C6: for every raw address, including null, wrapping with `from_raw` and
reading back with `as_raw` returns the same address for all three handle
kinds, and duplicating a handle preserves its `as_raw` value. -/
theorem handle_roundtrip_copy (a : Nat) (s : ArrowStream) (sch : ArrowSchema)
    (arr : ArrowArray) :
    (ArrowStream.from_raw a).as_raw = a ∧
    (ArrowSchema.from_raw a).as_raw = a ∧
    (ArrowArray.from_raw a).as_raw = a ∧
    s.copy.as_raw = s.as_raw ∧
    sch.copy.as_raw = sch.as_raw ∧
    arr.copy.as_raw = arr.as_raw :=
  ⟨rfl, rfl, rfl, rfl, rfl, rfl⟩

/-- C7: `open_in_memory` returns exactly what `open` returns on the single
argument "clickhouse", and `open_with_path p` returns exactly what `open`
returns on ["clickhouse", "--path=" ++ p]. -/
theorem convenience_open_equiv (E : Engine) (p : List Nat) :
    Connection.open_in_memory E = Connection.open E [strBytes "clickhouse"] ∧
    Connection.open_with_path E p =
      Connection.open E [strBytes "clickhouse", strBytes "--path=" ++ p] :=
  ⟨rfl, rfl⟩

/-- C8: no public operation retries an engine call: each of the five
operations makes at most one engine call, and exactly one when its string
arguments encode successfully. -/
theorem engine_called_at_most_once (E : Engine) (c : Connection)
    (args : List (List Nat)) (sql table_name : List Nat)
    (format : OutputFormat) (s : ArrowStream) (sch : ArrowSchema)
    (arr : ArrowArray) :
    (Connection.open E args).calls.length ≤ 1 ∧
    ((∀ a ∈ args, 0 ∉ a) → (Connection.open E args).calls.length = 1) ∧
    (Connection.query E c sql format).calls.length ≤ 1 ∧
    (0 ∉ sql → 0 ∉ format.as_str →
      (Connection.query E c sql format).calls.length = 1) ∧
    (Connection.register_arrow_stream E c table_name s).calls.length ≤ 1 ∧
    (0 ∉ table_name →
      (Connection.register_arrow_stream E c table_name s).calls.length = 1) ∧
    (Connection.register_arrow_array E c table_name sch arr).calls.length ≤ 1 ∧
    (0 ∉ table_name →
      (Connection.register_arrow_array E c table_name sch arr).calls.length = 1) ∧
    (Connection.unregister_arrow_table E c table_name).calls.length ≤ 1 ∧
    (0 ∉ table_name →
      (Connection.unregister_arrow_table E c table_name).calls.length = 1) := by
  refine ⟨?_, fun h => ?_, ?_, fun h1 h2 => ?_, ?_, fun h => ?_, ?_, fun h => ?_,
    ?_, fun h => ?_⟩
  · unfold Connection.open
    split
    · simp
    · dsimp only
      split
      · simp
      · split <;> simp
  · unfold Connection.open
    rw [encodeAll_eq_ok args h]
    dsimp only
    split
    · simp
    · split <;> simp
  · unfold Connection.query
    split
    · simp
    · split
      · simp
      · dsimp only
        split <;> simp
  · unfold Connection.query
    rw [CString.new_eq_ok sql h1, CString.new_eq_ok format.as_str h2]
    dsimp only
    split <;> simp
  · unfold Connection.register_arrow_stream
    split
    · simp
    · dsimp only
      split <;> simp
  · unfold Connection.register_arrow_stream
    rw [CString.new_eq_ok table_name h]
    dsimp only
    split <;> simp
  · unfold Connection.register_arrow_array
    split
    · simp
    · dsimp only
      split <;> simp
  · unfold Connection.register_arrow_array
    rw [CString.new_eq_ok table_name h]
    dsimp only
    split <;> simp
  · unfold Connection.unregister_arrow_table
    split
    · simp
    · dsimp only
      split <;> simp
  · unfold Connection.unregister_arrow_table
    rw [CString.new_eq_ok table_name h]
    dsimp only
    split <;> simp

/-- Witness for C8 at concrete null-free inputs on the all-success engine. -/
theorem engine_called_at_most_once_witness :
    (Connection.open sampleEngine [[99]]).calls.length ≤ 1 ∧
    (Connection.open sampleEngine [[99]]).calls.length = 1 ∧
    (Connection.query sampleEngine ⟨6⟩ [83] ⟨[70]⟩).calls.length ≤ 1 ∧
    (Connection.query sampleEngine ⟨6⟩ [83] ⟨[70]⟩).calls.length = 1 ∧
    (Connection.register_arrow_stream sampleEngine ⟨6⟩ [65] ⟨3⟩).calls.length ≤ 1 ∧
    (Connection.register_arrow_stream sampleEngine ⟨6⟩ [65] ⟨3⟩).calls.length = 1 ∧
    (Connection.register_arrow_array sampleEngine ⟨6⟩ [65] ⟨3⟩ ⟨4⟩).calls.length ≤ 1 ∧
    (Connection.register_arrow_array sampleEngine ⟨6⟩ [65] ⟨3⟩ ⟨4⟩).calls.length = 1 ∧
    (Connection.unregister_arrow_table sampleEngine ⟨6⟩ [65]).calls.length ≤ 1 ∧
    (Connection.unregister_arrow_table sampleEngine ⟨6⟩ [65]).calls.length = 1 := by
  have h := engine_called_at_most_once sampleEngine ⟨6⟩ [[99]] [83] [65] ⟨[70]⟩ ⟨3⟩ ⟨3⟩ ⟨4⟩
  exact ⟨h.1, h.2.1 (by decide), h.2.2.1, h.2.2.2.1 (by decide) (by decide),
    h.2.2.2.2.1, h.2.2.2.2.2.1 (by decide), h.2.2.2.2.2.2.1,
    h.2.2.2.2.2.2.2.1 (by decide), h.2.2.2.2.2.2.2.2.1,
    h.2.2.2.2.2.2.2.2.2 (by decide)⟩

/-- C9: every `&self` operation on a connection leaves the connection value,
and in particular its stored session-handle field, unchanged, whether the
operation succeeds or fails. -/
theorem operations_preserve_handle (E : Engine) (c : Connection)
    (sql table_name : List Nat) (format : OutputFormat) (s : ArrowStream)
    (sch : ArrowSchema) (arr : ArrowArray) :
    (Connection.query E c sql format).conn = c ∧
    (Connection.register_arrow_stream E c table_name s).conn = c ∧
    (Connection.register_arrow_array E c table_name sch arr).conn = c ∧
    (Connection.unregister_arrow_table E c table_name).conn = c := by
  refine ⟨?_, ?_, ?_, ?_⟩
  · unfold Connection.query
    split
    · rfl
    · split
      · rfl
      · dsimp only
        split <;> rfl
  · unfold Connection.register_arrow_stream
    split
    · rfl
    · dsimp only
      split <;> rfl
  · unfold Connection.register_arrow_array
    split
    · rfl
    · dsimp only
      split <;> rfl
  · unfold Connection.unregister_arrow_table
    split
    · rfl
    · dsimp only
      split <;> rfl

/-- C10: on the open failure path where the engine returned a non-null outer
handle whose dereferenced session is null, open returns `ConnectionFailed`
without ever calling the engine close entry point on that handle. -/
theorem open_failure_makes_no_close (E : Engine) (args : List (List Nat))
    (h : ∀ a ∈ args, 0 ∉ a) (h1 : E.connect args ≠ 0)
    (h2 : E.deref (E.connect args) = 0) :
    (Connection.open E args).res = .error .ConnectionFailed ∧
    ∀ p, EngineCall.close p ∉ (Connection.open E args).calls := by
  unfold Connection.open
  rw [encodeAll_eq_ok args h]
  dsimp only
  rw [if_neg h1, if_pos h2]
  exact ⟨rfl, by simp⟩

/-- Witness for C10 on the engine handing out a handle to a null session. -/
theorem open_failure_makes_no_close_witness :
    (∀ a ∈ [[99]], (0 : Nat) ∉ a) ∧
    nullSessionEngine.connect [[99]] ≠ 0 ∧
    nullSessionEngine.deref (nullSessionEngine.connect [[99]]) = 0 ∧
    ((Connection.open nullSessionEngine [[99]]).res = .error .ConnectionFailed ∧
      ∀ p, EngineCall.close p ∉ (Connection.open nullSessionEngine [[99]]).calls) :=
  ⟨by decide, by decide, by decide,
    open_failure_makes_no_close nullSessionEngine [[99]] (by decide) (by decide)
      (by decide)⟩

end ChdbRust
